import Mathlib

/-!
Verification of the Apple Notes AppleScript bridge (`notes_service.py`,
`server.py`): character-level models of the Python string operations the
service uses (escaping, `str.strip`, `str.split`), the four generated
AppleScript templates, the delimited-output decoders, and the facade-level
error classification and truncation.  Python string functions are modelled
on `List Char` with structural recursion so that all definitions evaluate.
-/

set_option maxRecDepth 16384

namespace MCPINotes

/-- Whitespace characters stripped by Python `str.strip()` (the ASCII
whitespace set, which covers all output the service handles). -/
def pyWS (c : Char) : Bool :=
  c = ' ' || c = '\t' || c = '\n' || c = '\r' || c = '\x0b' || c = '\x0c'

/-- Model of Python `str.strip()`: drop whitespace from both ends. -/
def pyStrip (s : String) : String :=
  String.mk (((s.data.dropWhile pyWS).reverse.dropWhile pyWS).reverse)

/-- Model of Python `str.replace(old, new)` for a one-character `old`
(the only form the service uses): substitute `new` for every occurrence
of the character `old`. -/
def pyReplaceChar (old : Char) (new : List Char) (l : List Char) : List Char :=
  (l.map (fun c => if c = old then new else [c])).flatten

/-- Escaping applied to title and identifier fields
(`notes_service.py` lines 30, 61, 105):
`s.replace("\\", "\\\\").replace('"', '\\"')` — backslashes doubled first,
then double quotes prefixed with a backslash. -/
def escape_basic (s : String) : String :=
  String.mk (pyReplaceChar '"' ['\\', '"'] (pyReplaceChar '\\' ['\\', '\\'] s.data))

/-- Escaping applied to body/content fields
(`notes_service.py` lines 31, 106): the basic escaping followed by
`.replace('\n', '<br>')`. -/
def escape_body (s : String) : String :=
  String.mk (pyReplaceChar '\n' ['<', 'b', 'r', '>']
    (pyReplaceChar '"' ['\\', '"'] (pyReplaceChar '\\' ['\\', '\\'] s.data)))

/-- Newline-to-`<br>` substitution on its own (used to state the body
round-trip property). -/
def newline_to_br (s : String) : String :=
  String.mk (pyReplaceChar '\n' ['<', 'b', 'r', '>'] s.data)

/-- Model of Python `str.split("|~|")` (the field delimiter): split at each
non-overlapping, leftmost-first occurrence of the three characters
`|~|`. -/
def splitFields : List Char → List (List Char)
  | '|' :: '~' :: '|' :: rest => [] :: splitFields rest
  | c :: rest =>
    match splitFields rest with
    | [] => [[c]]
    | p :: ps => (c :: p) :: ps
  | [] => [[]]

/-- Model of Python `str.split("||")` (the record delimiter). -/
def splitRecords : List Char → List (List Char)
  | '|' :: '|' :: rest => [] :: splitRecords rest
  | c :: rest =>
    match splitRecords rest with
    | [] => [[c]]
    | p :: ps => (c :: p) :: ps
  | [] => [[]]

/-- Boolean test: is `p` an initial segment of the second list? -/
def isPre : List Char → List Char → Bool
  | [], _ => true
  | _ :: _, [] => false
  | p :: ps, c :: cs => p == c && isPre ps cs

/-- Boolean substring test on character lists. -/
def containsSub (pat : List Char) : List Char → Bool
  | [] => isPre pat []
  | c :: rest => isPre pat (c :: rest) || containsSub pat rest

/-- Boolean substring test on strings: does `s` contain `pat`? -/
def strContains (s pat : String) : Bool :=
  containsSub pat.data s.data

/-- Decoder for the contents of a double-quoted script literal: `\\`
decodes to `\` and `\"` decodes to `"`; every other character stands for
itself.  This is how the AppleScript interpreter reads back the text the
escaper produced. -/
def unescapeChars : List Char → List Char
  | [] => []
  | [c] => [c]
  | c₁ :: c₂ :: rest =>
    if c₁ = '\\' && (c₂ = '\\' || c₂ = '"') then c₂ :: unescapeChars rest
    else c₁ :: unescapeChars (c₂ :: rest)

/-- String version of `unescapeChars`. -/
def unescape (s : String) : String :=
  String.mk (unescapeChars s.data)

/-- The hardcoded folder name (`NotesService.FOLDER`), not configurable. -/
def FOLDER : String := "Claude Diary"

/-- Fixed text of the create script before the interpolated title
(`notes_service.py` lines 33-36). -/
def createScriptPre : String :=
  "\n        tell application \"Notes\"\n            tell folder \"" ++ FOLDER ++
  "\"\n                set newNote to make new note with properties \x7bname:\""

/-- Fixed text of the create script between the title and the body. -/
def createScriptMid : String := "\", body:\""

/-- Fixed text of the create script after the interpolated body
(`notes_service.py` lines 36-40). -/
def createScriptPost : String :=
  "\"\x7d\n                return id of newNote\n            end tell\n        end tell\n        "

/-- The create script (`notes_service.py` lines 30-40): the fixed template
with the escaped title and escaped body interpolated. -/
def create_note_script (title body : String) : String :=
  createScriptPre ++ escape_basic title ++ createScriptMid ++ escape_body body ++ createScriptPost

/-- Fixed text of the fetch-one script before the interpolated note id
(`notes_service.py` lines 63-65). -/
def getNoteScriptPre : String :=
  "\n        tell application \"Notes\"\n            set theNote to note id \""

/-- Fixed text of the fetch-one script after the interpolated note id
(`notes_service.py` lines 65-76). -/
def getNoteScriptPost : String :=
  "\"\n            set noteData to \x7b\x7d\n            set end of noteData to id of theNote\n            set end of noteData to name of theNote\n            set end of noteData to body of theNote\n            set end of noteData to creation date of theNote as string\n            set end of noteData to modification date of theNote as string\n\n            set AppleScript\x27s text item delimiters to \"|~|\"\n            return noteData as text\n        end tell\n        "

/-- The fetch-one script (`notes_service.py` lines 61-76): the fixed
template with the escaped note id interpolated. -/
def get_note_script (note_id : String) : String :=
  getNoteScriptPre ++ escape_basic note_id ++ getNoteScriptPost

/-- Fixed text of the append script before the interpolated note id
(`notes_service.py` lines 108-110). -/
def appendScriptPre : String :=
  "\n        tell application \"Notes\"\n            set theNote to note id \""

/-- Fixed text of the append script between the note id and the content:
it re-reads the existing body and concatenates two break markers before
the new content (`notes_service.py` line 111). -/
def appendScriptMid : String :=
  "\"\n            set body of theNote to (body of theNote) & \"<br><br>"

/-- Fixed text of the append script after the interpolated content
(`notes_service.py` lines 111-113). -/
def appendScriptPost : String := "\"\n        end tell\n        "

/-- The append script (`notes_service.py` lines 105-113): the fixed
template with the escaped note id and escaped content interpolated. -/
def append_to_note_script (note_id content : String) : String :=
  appendScriptPre ++ escape_basic note_id ++ appendScriptMid ++ escape_body content ++ appendScriptPost

/-- The list-all script (`notes_service.py` lines 133-154).  The
`start_date` and `end_date` parameters of `get_notes_list` are accepted
but never used, so the script is one constant text. -/
def get_notes_list_script (start_date end_date : Option String) : String :=
  "\n        tell application \"Notes\"\n            set allNotes to notes of folder \"" ++ FOLDER ++
  "\"\n            set notesList to \x7b\x7d\n            repeat with theNote in allNotes\n                set noteInfo to \x7b\x7d\n                set end of noteInfo to id of theNote\n                set end of noteInfo to name of theNote\n                set end of noteInfo to creation date of theNote as string\n                set end of noteInfo to modification date of theNote as string\n                set end of notesList to noteInfo\n            end repeat\n\n            set AppleScript\x27s text item delimiters to \"|~|\"\n            set output to \x7b\x7d\n            repeat with noteInfo in notesList\n                set end of output to noteInfo as text\n            end repeat\n            set AppleScript\x27s text item delimiters to \"||\"\n            return output as text\n        end tell\n        "

/-- Effect of the append script's AppleScript assignment
`set body of theNote to (body of theNote) & "<br><br>{content}"`
(`notes_service.py` line 111) on the note's body: the old body, then the
two break markers, then the escaped new content. -/
def append_effect (old_body content : String) : String :=
  old_body ++ "<br><br>" ++ escape_body content

/-- Captured result of the external `osascript` process
(`subprocess.run`): exit status, stdout, stderr. -/
structure ProcResult where
  returncode : Int
  stdout : String
  stderr : String
deriving DecidableEq, Repr

/-- Full note record returned by `get_note`. -/
structure NoteRecord where
  id : String
  name : String
  body : String
  creation_date : String
  modification_date : String
deriving DecidableEq, Repr

/-- Summary record returned by `get_notes_list` (no body). -/
structure NoteListEntry where
  id : String
  name : String
  creation_date : String
  modification_date : String
deriving DecidableEq, Repr

/-- Decoding step of `get_note` (`notes_service.py` lines 83-93): strip
the stdout, split on the field delimiter, fail when fewer than 5 parts,
otherwise build the record from the first five parts positionally. -/
def decode_get_note (stdout : String) : Option NoteRecord :=
  if (splitFields (pyStrip stdout).data).length < 5 then none
  else some
    { id := String.mk ((splitFields (pyStrip stdout).data).getD 0 [])
      name := String.mk ((splitFields (pyStrip stdout).data).getD 1 [])
      body := String.mk ((splitFields (pyStrip stdout).data).getD 2 [])
      creation_date := String.mk ((splitFields (pyStrip stdout).data).getD 3 [])
      modification_date := String.mk ((splitFields (pyStrip stdout).data).getD 4 []) }

/-- Per-segment decoding step of the `get_notes_list` loop
(`notes_service.py` lines 166-173): skip the segment when it is empty
(`continue`) or has fewer than 4 field-delimited parts; otherwise build a
summary record from the first four parts positionally. -/
def decode_note_segment (seg : List Char) : Option NoteListEntry :=
  if seg = [] then none
  else if 4 ≤ (splitFields seg).length then
    some
      { id := String.mk ((splitFields seg).getD 0 [])
        name := String.mk ((splitFields seg).getD 1 [])
        creation_date := String.mk ((splitFields seg).getD 2 [])
        modification_date := String.mk ((splitFields seg).getD 3 []) }
  else none

/-- Decoding step of `get_notes_list` (`notes_service.py` lines 161-177):
strip the stdout; an empty result decodes to the empty list; otherwise
split on the record delimiter and decode each segment, dropping the
segments `decode_note_segment` rejects. -/
def decode_notes_list (stdout : String) : List NoteListEntry :=
  if (pyStrip stdout).data = [] then []
  else (splitRecords (pyStrip stdout).data).filterMap decode_note_segment

/-- Facade behaviour of `NotesService.get_note` on a captured process
result (`notes_service.py` lines 78-93): non-zero exit raises
`Failed to get note` with the stderr text; on exit 0 the stdout is
decoded, raising `Invalid response from AppleScript` when decoding
fails. -/
def notes_service_get_note (res : ProcResult) : Except String NoteRecord :=
  if res.returncode ≠ 0 then .error ("Failed to get note: " ++ res.stderr)
  else
    match decode_get_note res.stdout with
    | none => .error "Invalid response from AppleScript"
    | some r => .ok r

/-- Facade behaviour of `NotesService.get_notes_list` on a captured
process result (`notes_service.py` lines 156-177).  The date parameters
are accepted but never read (the source marks filtering as not
implemented). -/
def notes_service_get_notes_list (start_date end_date : Option String)
    (res : ProcResult) : Except String (List NoteListEntry) :=
  if res.returncode ≠ 0 then .error ("Failed to get notes: " ++ res.stderr)
  else .ok (decode_notes_list res.stdout)

/-- Truncation applied by the caller-facing tool layer
(`server.py` lines 121-122): `notes = notes[:50]`. -/
def server_truncate (notes : List NoteListEntry) : List NoteListEntry :=
  notes.take 50

/-- The caller-facing list pipeline (`server.py` `get_notes_list`): the
service result with the truncation applied. -/
def server_get_notes_list (start_date end_date : Option String)
    (res : ProcResult) : Except String (List NoteListEntry) :=
  (notes_service_get_notes_list start_date end_date res).map server_truncate

/-- Character-level description of `escape_basic`. -/
def escChar (c : Char) : List Char :=
  if c = '\\' then ['\\', '\\'] else if c = '"' then ['\\', '"'] else [c]

/-- Character-level description of `escape_body`. -/
def escBodyChar (c : Char) : List Char :=
  if c = '\\' then ['\\', '\\'] else if c = '"' then ['\\', '"']
  else if c = '\n' then ['<', 'b', 'r', '>'] else [c]

/-- Character-level description of `newline_to_br`. -/
def nlChar (c : Char) : List Char :=
  if c = '\n' then ['<', 'b', 'r', '>'] else [c]

lemma pyReplaceChar_append (old : Char) (new a b : List Char) :
    pyReplaceChar old new (a ++ b) = pyReplaceChar old new a ++ pyReplaceChar old new b := by
  simp [pyReplaceChar]

lemma pyReplaceChar_flatten (old : Char) (new : List Char) (f : Char → List Char)
    (l : List Char) :
    pyReplaceChar old new ((l.map f).flatten) =
      (l.map (fun c => pyReplaceChar old new (f c))).flatten := by
  induction l with
  | nil => rfl
  | cons c t ih => simp [List.map_cons, List.flatten_cons, pyReplaceChar_append, ih]

lemma escChar_spec (c : Char) :
    pyReplaceChar '"' ['\\', '"'] (if c = '\\' then ['\\', '\\'] else [c]) = escChar c := by
  by_cases h1 : c = '\\'
  · subst h1; decide
  · by_cases h2 : c = '"'
    · subst h2; decide
    · simp [pyReplaceChar, escChar, h1, h2]

lemma escBodyChar_spec (c : Char) :
    pyReplaceChar '\n' ['<', 'b', 'r', '>'] (escChar c) = escBodyChar c := by
  by_cases h1 : c = '\\'
  · subst h1; decide
  · by_cases h2 : c = '"'
    · subst h2; decide
    · by_cases h3 : c = '\n'
      · subst h3; decide
      · simp [pyReplaceChar, escChar, escBodyChar, h1, h2, h3]

lemma escape_basic_chars (l : List Char) :
    pyReplaceChar '"' ['\\', '"'] (pyReplaceChar '\\' ['\\', '\\'] l) =
      (l.map escChar).flatten := by
  have h0 : pyReplaceChar '\\' ['\\', '\\'] l =
      (l.map (fun c => if c = '\\' then ['\\', '\\'] else [c])).flatten := rfl
  rw [h0, pyReplaceChar_flatten]
  congr 1
  exact List.map_congr_left fun c _ => escChar_spec c

lemma escape_body_chars (l : List Char) :
    pyReplaceChar '\n' ['<', 'b', 'r', '>']
      (pyReplaceChar '"' ['\\', '"'] (pyReplaceChar '\\' ['\\', '\\'] l)) =
      (l.map escBodyChar).flatten := by
  rw [escape_basic_chars, pyReplaceChar_flatten]
  congr 1
  exact List.map_congr_left fun c _ => escBodyChar_spec c

lemma unescapeChars_cons_of_ne (c : Char) (h : ¬ c = '\\') (J : List Char) :
    unescapeChars (c :: J) = c :: unescapeChars J := by
  cases J with
  | nil => rfl
  | cons d J' => simp [unescapeChars, h]

lemma unescapeChars_esc_pair (c : Char) (hc : c = '\\' ∨ c = '"') (J : List Char) :
    unescapeChars ('\\' :: c :: J) = c :: unescapeChars J := by
  rcases hc with h | h <;> subst h <;> simp [unescapeChars]

lemma unescape_escChar (l : List Char) :
    unescapeChars ((l.map escChar).flatten) = l := by
  induction l with
  | nil => rfl
  | cons c t ih =>
    simp only [List.map_cons, List.flatten_cons]
    by_cases h1 : c = '\\'
    · subst h1
      rw [show escChar '\\' = ['\\', '\\'] from by decide]
      rw [show (['\\', '\\'] : List Char) ++ (t.map escChar).flatten =
            '\\' :: '\\' :: (t.map escChar).flatten from rfl]
      rw [unescapeChars_esc_pair '\\' (Or.inl rfl), ih]
    · by_cases h2 : c = '"'
      · subst h2
        rw [show escChar '"' = ['\\', '"'] from by decide]
        rw [show (['\\', '"'] : List Char) ++ (t.map escChar).flatten =
              '\\' :: '"' :: (t.map escChar).flatten from rfl]
        rw [unescapeChars_esc_pair '"' (Or.inr rfl), ih]
      · rw [show escChar c = [c] from by simp [escChar, h1, h2]]
        rw [List.singleton_append, unescapeChars_cons_of_ne c h1, ih]

lemma unescape_escBodyChar (l : List Char) :
    unescapeChars ((l.map escBodyChar).flatten) = (l.map nlChar).flatten := by
  induction l with
  | nil => rfl
  | cons c t ih =>
    simp only [List.map_cons, List.flatten_cons]
    by_cases h1 : c = '\\'
    · subst h1
      rw [show escBodyChar '\\' = ['\\', '\\'] from by decide]
      rw [show nlChar '\\' = ['\\'] from by decide]
      rw [show (['\\', '\\'] : List Char) ++ (t.map escBodyChar).flatten =
            '\\' :: '\\' :: (t.map escBodyChar).flatten from rfl]
      rw [unescapeChars_esc_pair '\\' (Or.inl rfl), ih, List.singleton_append]
    · by_cases h2 : c = '"'
      · subst h2
        rw [show escBodyChar '"' = ['\\', '"'] from by decide]
        rw [show nlChar '"' = ['"'] from by decide]
        rw [show (['\\', '"'] : List Char) ++ (t.map escBodyChar).flatten =
              '\\' :: '"' :: (t.map escBodyChar).flatten from rfl]
        rw [unescapeChars_esc_pair '"' (Or.inr rfl), ih, List.singleton_append]
      · by_cases h3 : c = '\n'
        · subst h3
          rw [show escBodyChar '\n' = ['<', 'b', 'r', '>'] from by decide]
          rw [show nlChar '\n' = ['<', 'b', 'r', '>'] from by decide]
          rw [show (['<', 'b', 'r', '>'] : List Char) ++ (t.map escBodyChar).flatten =
                '<' :: 'b' :: 'r' :: '>' :: (t.map escBodyChar).flatten from rfl]
          rw [unescapeChars_cons_of_ne '<' (by decide), unescapeChars_cons_of_ne 'b' (by decide),
            unescapeChars_cons_of_ne 'r' (by decide), unescapeChars_cons_of_ne '>' (by decide), ih]
          rfl
        · rw [show escBodyChar c = [c] from by simp [escBodyChar, h1, h2, h3]]
          rw [show nlChar c = [c] from by simp [nlChar, h3]]
          rw [List.singleton_append, List.singleton_append,
            unescapeChars_cons_of_ne c h1, ih]

lemma isPre_append (p : List Char) :
    ∀ a b : List Char, isPre p a = true → isPre p (a ++ b) = true := by
  induction p with
  | nil => intro a b _; rfl
  | cons x xs ih =>
    intro a b h
    cases a with
    | nil => simp [isPre] at h
    | cons y ys =>
      simp only [List.cons_append]
      simp only [isPre, Bool.and_eq_true, beq_iff_eq] at h ⊢
      exact ⟨h.1, ih ys b h.2⟩

lemma containsSub_nil_pat (l : List Char) : containsSub [] l = true := by
  cases l <;> simp [containsSub, isPre]

lemma containsSub_append_right (pat a b : List Char) (h : containsSub pat b = true) :
    containsSub pat (a ++ b) = true := by
  induction a with
  | nil => exact h
  | cons c t ih =>
    show containsSub pat (c :: (t ++ b)) = true
    simp only [containsSub, Bool.or_eq_true]
    exact Or.inr ih

lemma containsSub_append_left (pat : List Char) :
    ∀ a b : List Char, containsSub pat a = true → containsSub pat (a ++ b) = true := by
  intro a
  induction a with
  | nil =>
    intro b h
    cases pat with
    | nil => exact containsSub_nil_pat b
    | cons x xs => simp [containsSub, isPre] at h
  | cons c t ih =>
    intro b h
    simp only [List.cons_append]
    simp only [containsSub, Bool.or_eq_true] at h ⊢
    rcases h with h | h
    · exact Or.inl (isPre_append _ (c :: t) b h)
    · exact Or.inr (ih b h)

/-- C1: settles the folder-scope claim against the code.  The create and
list-all scripts do contain the literal folder scope `folder "Claude Diary"`
for every caller input, but the fetch-one and append scripts contain no
folder scope at all: they address the note globally by id, so for an id
naming a note in another folder the generated script never mentions
`Claude Diary` and the operation is not confined to that container. -/
theorem claim1_folder_scope :
    (∀ title body, strContains (create_note_script title body)
        ("folder \"" ++ FOLDER ++ "\"") = true) ∧
    (∀ start_date end_date, strContains (get_notes_list_script start_date end_date)
        ("folder \"" ++ FOLDER ++ "\"") = true) ∧
    strContains (get_note_script "x-coredata://note-in-another-folder") FOLDER = false ∧
    strContains (append_to_note_script "x-coredata://note-in-another-folder" "entry")
      FOLDER = false := by
  refine ⟨?_, ?_, by decide, by decide⟩
  · intro title body
    have hd : (create_note_script title body).data =
        createScriptPre.data ++ (escape_basic title).data ++ createScriptMid.data ++
          (escape_body body).data ++ createScriptPost.data := rfl
    show containsSub ("folder \"" ++ FOLDER ++ "\"").data (create_note_script title body).data = true
    rw [hd]
    exact containsSub_append_left _ _ _ (containsSub_append_left _ _ _
      (containsSub_append_left _ _ _ (containsSub_append_left _ _ _ (by decide))))
  · intro start_date end_date
    exact (by decide :
      strContains (get_notes_list_script none none) ("folder \"" ++ FOLDER ++ "\"") = true)

/-- C2: the append script sets the body to the existing body, then the two
break markers `<br><br>`, then the escaped new content; the pre-append body
is a prefix of the post-append body, so append never deletes, shortens, or
overwrites existing content. -/
theorem claim2_append_only (old_body content : String) :
    append_effect old_body content = old_body ++ "<br><br>" ++ escape_body content ∧
    old_body.data <+: (append_effect old_body content).data ∧
    old_body.length ≤ (append_effect old_body content).length ∧
    (∀ note_id c, strContains (append_to_note_script note_id c)
      "(body of theNote) & \"<br><br>" = true) := by
  refine ⟨rfl, ?_, ?_, ?_⟩
  · exact ⟨"<br><br>".data ++ (escape_body content).data, by
      simp [append_effect, String.data_append]⟩
  · simp only [append_effect, String.length_append]
    omega
  · intro note_id c
    have hd : (append_to_note_script note_id c).data =
        appendScriptPre.data ++ (escape_basic note_id).data ++ appendScriptMid.data ++
          (escape_body c).data ++ appendScriptPost.data := rfl
    show containsSub "(body of theNote) & \"<br><br>".data
      (append_to_note_script note_id c).data = true
    rw [hd]
    exact containsSub_append_left _ _ _ (containsSub_append_left _ _ _
      (containsSub_append_right _ _ _ (by decide)))

/-- C3: the escaper doubles backslashes before escaping quotes, and the
escaped text, re-interpreted as the contents of a double-quoted literal,
decodes back to the original string; for body fields the round trip is
modulo the newline-to-`<br>` substitution. -/
theorem claim3_escape_round_trip (s : String) :
    unescape (escape_basic s) = s ∧ unescape (escape_body s) = newline_to_br s := by
  obtain ⟨l⟩ := s
  constructor
  · show String.mk (unescapeChars (escape_basic ⟨l⟩).data) = String.mk l
    rw [show (escape_basic ⟨l⟩).data = (l.map escChar).flatten from escape_basic_chars l]
    rw [unescape_escChar]
  · show String.mk (unescapeChars (escape_body ⟨l⟩).data) = newline_to_br ⟨l⟩
    rw [show (escape_body ⟨l⟩).data = (l.map escBodyChar).flatten from escape_body_chars l]
    rw [unescape_escBodyChar]
    show String.mk ((l.map nlChar).flatten) = String.mk (pyReplaceChar '\n' ['<', 'b', 'r', '>'] l)
    rfl

/-- C6: the `start_date` and `end_date` parameters of the list operation
are accepted but inert: for any two pairs of date arguments the generated
script, the service-level result, and the caller-facing result are
identical. -/
theorem claim6_date_params_inert (s₁ e₁ s₂ e₂ : Option String) (res : ProcResult) :
    get_notes_list_script s₁ e₁ = get_notes_list_script s₂ e₂ ∧
    notes_service_get_notes_list s₁ e₁ res = notes_service_get_notes_list s₂ e₂ res ∧
    server_get_notes_list s₁ e₁ res = server_get_notes_list s₂ e₂ res :=
  ⟨rfl, rfl, rfl⟩

/-- C4: on exit status 0, fewer than 5 field-delimited parts in the stdout
raises the decode failure `Invalid response from AppleScript` and no
record is returned; with at least 5 parts the first five parts map
positionally to id, name, body, creation_date, modification_date. -/
theorem claim4_get_note_decode (res : ProcResult) (h0 : res.returncode = 0) :
    ((splitFields (pyStrip res.stdout).data).length < 5 →
      notes_service_get_note res = .error "Invalid response from AppleScript") ∧
    (5 ≤ (splitFields (pyStrip res.stdout).data).length →
      notes_service_get_note res = .ok
        { id := String.mk ((splitFields (pyStrip res.stdout).data).getD 0 [])
          name := String.mk ((splitFields (pyStrip res.stdout).data).getD 1 [])
          body := String.mk ((splitFields (pyStrip res.stdout).data).getD 2 [])
          creation_date := String.mk ((splitFields (pyStrip res.stdout).data).getD 3 [])
          modification_date := String.mk ((splitFields (pyStrip res.stdout).data).getD 4 []) }) := by
  constructor
  · intro h
    simp only [notes_service_get_note]
    rw [if_neg (by simp [h0])]
    simp [decode_get_note, h]
  · intro h
    simp only [notes_service_get_note]
    rw [if_neg (by simp [h0])]
    simp [decode_get_note, Nat.not_lt.mpr h]

/-- Witness for C4 at concrete process outputs: 3 parts fail to decode,
5 parts decode to the positional record. -/
theorem claim4_get_note_decode_witness :
    notes_service_get_note ⟨0, "a|~|b|~|c", ""⟩ =
      .error "Invalid response from AppleScript" ∧
    notes_service_get_note ⟨0, "a|~|b|~|c|~|d|~|e", ""⟩ =
      .ok { id := "a", name := "b", body := "c", creation_date := "d",
            modification_date := "e" } := by
  constructor
  · exact (claim4_get_note_decode ⟨0, "a|~|b|~|c", ""⟩ rfl).1 (by decide)
  · exact ((claim4_get_note_decode ⟨0, "a|~|b|~|c|~|d|~|e", ""⟩ rfl).2 (by decide)).trans
      (by rfl)

/-- C10: when the stdout splits into more than 5 parts (for example when
the note body itself contains the field delimiter), the fetch-one decode
succeeds, builds the record from the first five parts positionally, and
silently discards the parts beyond the fifth. -/
theorem claim10_get_note_extra_parts (res : ProcResult) (h0 : res.returncode = 0)
    (h5 : 5 < (splitFields (pyStrip res.stdout).data).length) :
    notes_service_get_note res = .ok
      { id := String.mk ((splitFields (pyStrip res.stdout).data).getD 0 [])
        name := String.mk ((splitFields (pyStrip res.stdout).data).getD 1 [])
        body := String.mk ((splitFields (pyStrip res.stdout).data).getD 2 [])
        creation_date := String.mk ((splitFields (pyStrip res.stdout).data).getD 3 [])
        modification_date := String.mk ((splitFields (pyStrip res.stdout).data).getD 4 []) } := by
  simp only [notes_service_get_note]
  rw [if_neg (by simp [h0])]
  simp [decode_get_note, Nat.not_lt.mpr (Nat.le_of_lt h5)]

/-- Witness for C10: six parts decode to the first five positionally; the
sixth part is dropped. -/
theorem claim10_get_note_extra_parts_witness :
    notes_service_get_note ⟨0, "id1|~|Title|~|part1|~|part2|~|Mon|~|Tue", ""⟩ =
      .ok { id := "id1", name := "Title", body := "part1", creation_date := "part2",
            modification_date := "Mon" } :=
  (claim10_get_note_extra_parts ⟨0, "id1|~|Title|~|part1|~|part2|~|Mon|~|Tue", ""⟩ rfl
    (by decide)).trans (by rfl)

lemma decode_note_segment_eq_some (seg : List Char) (e : NoteListEntry) :
    decode_note_segment seg = some e ↔
      seg ≠ [] ∧ 4 ≤ (splitFields seg).length ∧
      e = { id := String.mk ((splitFields seg).getD 0 [])
            name := String.mk ((splitFields seg).getD 1 [])
            creation_date := String.mk ((splitFields seg).getD 2 [])
            modification_date := String.mk ((splitFields seg).getD 3 []) } := by
  constructor
  · intro h
    by_cases h1 : seg = []
    · simp only [decode_note_segment, if_pos h1] at h
      exact absurd h (by simp)
    · simp only [decode_note_segment, if_neg h1] at h
      by_cases h2 : 4 ≤ (splitFields seg).length
      · rw [if_pos h2] at h
        exact ⟨h1, h2, (Option.some.inj h).symm⟩
      · rw [if_neg h2] at h
        exact absurd h (by simp)
  · rintro ⟨h1, h2, he⟩
    simp only [decode_note_segment, if_neg h1, if_pos h2, he]

/-- C7: for non-empty (after stripping) list-all output, an entry is in the
decoded list exactly when some record-delimited segment produces it: the
segment is non-empty, splits into at least 4 field-delimited parts, and the
first four parts map positionally to id, name, creation_date,
modification_date; empty segments and segments with fewer than 4 parts are
dropped without failing the whole list. -/
theorem claim7_list_decode (res : ProcResult) (h0 : res.returncode = 0)
    (hne : (pyStrip res.stdout).data ≠ []) (e : NoteListEntry) :
    notes_service_get_notes_list none none res = .ok (decode_notes_list res.stdout) ∧
    (e ∈ decode_notes_list res.stdout ↔
      ∃ seg ∈ splitRecords (pyStrip res.stdout).data,
        seg ≠ [] ∧ 4 ≤ (splitFields seg).length ∧
        e = { id := String.mk ((splitFields seg).getD 0 [])
              name := String.mk ((splitFields seg).getD 1 [])
              creation_date := String.mk ((splitFields seg).getD 2 [])
              modification_date := String.mk ((splitFields seg).getD 3 []) }) := by
  constructor
  · simp only [notes_service_get_notes_list]
    rw [if_neg (by simp [h0])]
  · simp only [decode_notes_list, if_neg hne]
    rw [List.mem_filterMap]
    constructor
    · rintro ⟨seg, hm, hd⟩
      exact ⟨seg, hm, (decode_note_segment_eq_some seg e).mp hd⟩
    · rintro ⟨seg, hm, hcond⟩
      exact ⟨seg, hm, (decode_note_segment_eq_some seg e).mpr hcond⟩

/-- Witness for C7 on a concrete raw output with a full segment, a short
segment (dropped), and a 5-part segment whose first four parts form the
entry. -/
theorem claim7_list_decode_witness :
    notes_service_get_notes_list none none
        ⟨0, "a|~|b|~|c|~|d||bad||p|~|q|~|r|~|s|~|t", ""⟩ =
      .ok (decode_notes_list "a|~|b|~|c|~|d||bad||p|~|q|~|r|~|s|~|t") ∧
    ({ id := "p", name := "q", creation_date := "r", modification_date := "s" } :
        NoteListEntry) ∈
      decode_notes_list "a|~|b|~|c|~|d||bad||p|~|q|~|r|~|s|~|t" := by
  have h := claim7_list_decode ⟨0, "a|~|b|~|c|~|d||bad||p|~|q|~|r|~|s|~|t", ""⟩ rfl
    (by decide) ⟨"p", "q", "r", "s"⟩
  exact ⟨h.1, h.2.mpr ⟨"p|~|q|~|r|~|s|~|t".data, by decide, by decide, by decide, by decide⟩⟩

/-- C8: on exit status 0, stdout that is empty or all whitespace decodes to
the empty list: the operation returns `.ok []` and raises no error. -/
theorem claim8_whitespace_empty_list (res : ProcResult) (h0 : res.returncode = 0)
    (hws : ∀ c ∈ res.stdout.data, pyWS c = true) :
    notes_service_get_notes_list none none res = .ok [] := by
  have h1 : res.stdout.data.dropWhile pyWS = [] := List.dropWhile_eq_nil_iff.mpr hws
  have h2 : (pyStrip res.stdout).data = [] := by
    simp [pyStrip, h1]
  simp only [notes_service_get_notes_list]
  rw [if_neg (by simp [h0])]
  simp [decode_notes_list, h2]

/-- Witness for C8 at a concrete whitespace-only stdout. -/
theorem claim8_whitespace_empty_list_witness :
    notes_service_get_notes_list none none ⟨0, "  \n\t ", "ignored"⟩ = .ok [] :=
  claim8_whitespace_empty_list ⟨0, "  \n\t ", "ignored"⟩ rfl (by decide)

/-- C5: the caller-facing layer truncates the decoded list to its first 50
entries: the truncated list is a prefix of the decoded list (so emitted
order is preserved), it has exactly 50 entries when at least 50 are
available, and all entries when 50 or fewer are available; on exit status 0
the caller-facing pipeline returns exactly this truncation. -/
theorem claim5_list_truncation (notes : List NoteListEntry) (sd ed : Option String)
    (res : ProcResult) :
    server_truncate notes <+: notes ∧
    (50 ≤ notes.length → (server_truncate notes).length = 50) ∧
    (notes.length ≤ 50 → server_truncate notes = notes) ∧
    (res.returncode = 0 →
      server_get_notes_list sd ed res = .ok (server_truncate (decode_notes_list res.stdout))) := by
  refine ⟨⟨notes.drop 50, List.take_append_drop 50 notes⟩, ?_, ?_, ?_⟩
  · intro h
    simp only [server_truncate, List.length_take]
    omega
  · intro h
    exact List.take_of_length_le h
  · intro h0
    simp only [server_get_notes_list, notes_service_get_notes_list]
    rw [if_neg (by simp [h0])]
    rfl

/-- Witness for C5: 75 available records truncate to exactly 50, 10 records
pass through unchanged, and the pipeline equation holds at a concrete
process result. -/
theorem claim5_list_truncation_witness :
    (server_truncate (List.replicate 75
        ({ id := "i", name := "n", creation_date := "c", modification_date := "m" } :
          NoteListEntry))).length = 50 ∧
    server_truncate (List.replicate 10
        ({ id := "i", name := "n", creation_date := "c", modification_date := "m" } :
          NoteListEntry)) =
      List.replicate 10
        ({ id := "i", name := "n", creation_date := "c", modification_date := "m" } :
          NoteListEntry) ∧
    server_get_notes_list none none ⟨0, "", ""⟩ =
      .ok (server_truncate (decode_notes_list "")) :=
  ⟨(claim5_list_truncation _ none none ⟨0, "", ""⟩).2.1 (by decide),
   (claim5_list_truncation _ none none ⟨0, "", ""⟩).2.2.1 (by decide),
   (claim5_list_truncation [] none none ⟨0, "", ""⟩).2.2.2 rfl⟩

/-- C9: `create("Day 1", "Slept well.")` yields a script containing the
exact literal `body:"Slept well."`; `create("He said \"hi\"",
"line1\nline2")` yields a script containing `name:"He said \"hi\""` (with
the quotes escaped) and the body content `line1<br>line2`; title fields
receive backslash and quote escaping only, while body fields additionally
have newlines replaced by `<br>`. -/
theorem claim9_create_script_examples :
    strContains (create_note_script "Day 1" "Slept well.") "body:\"Slept well.\"" = true ∧
    strContains (create_note_script "He said \"hi\"" "line1\nline2")
      "name:\"He said \\\"hi\\\"\"" = true ∧
    strContains (create_note_script "He said \"hi\"" "line1\nline2") "line1<br>line2" = true ∧
    escape_basic "He said \"hi\"" = "He said \\\"hi\\\"" ∧
    escape_body "line1\nline2" = "line1<br>line2" ∧
    escape_basic "line1\nline2" = "line1\nline2" ∧
    (∀ s, escape_body s = newline_to_br (escape_basic s)) :=
  ⟨by decide, by decide, by decide, by decide, by decide, by decide, fun _ => rfl⟩

end MCPINotes
